import Mathlib

/-!
Verification of the ecotrack-product-server scoring / readiness / task-sync
engine.  The TypeScript services are shallowly embedded: JS numbers are
modelled as exact rationals (`ℚ`), absent / null fields as `Option`,
mongoose documents as structures, and the mutable task backlog as an
explicit list of tasks threaded through `syncTasks`.
-/

attribute [local semireducible] Rat.add Rat.mul Rat.inv Rat.sub Rat.ofScientific

namespace EcoTrack

/-! ## JS helpers

`orNum o d` models `Number(x || d)` for a field `x : Option ℚ`: JS `||`
skips falsy values, and the falsy numeric value is `0`.
`truthyQ o` models JS truthiness of an optional numeric field.
`jsRound` models `Math.round` (half away from minus infinity, i.e.
`⌊x + 1/2⌋`), and `round1` models `Math.round(x * 10) / 10`. -/

def orNum (o : Option ℚ) (d : ℚ) : ℚ :=
  match o with
  | some q => if q = 0 then d else q
  | none => d

def truthyQ (o : Option ℚ) : Bool :=
  decide (orNum o 0 ≠ 0)

def jsRound (x : ℚ) : ℤ := (x + 1 / 2).num / ((x + 1 / 2).den : ℤ)

theorem jsRound_eq_floor (x : ℚ) : jsRound x = ⌊x + 1 / 2⌋ := by
  rw [jsRound, Rat.floor_def]

def round1 (x : ℚ) : ℚ := (jsRound (x * 10) : ℚ) / 10

/-- Models `Math.max(0, Math.min(100, score))`. -/
def clamp0100 (x : ℚ) : ℚ := max 0 (min 100 x)

/-! ## Metric snapshots and company profile (mongoose documents)

Only numeric and boolean fields read by the embedded services are kept.
A field holds `none` when the document lacks the field (undefined/null). -/

structure EnvM where
  electricityKwh : Option ℚ := none
  electricityUsageKwh : Option ℚ := none
  totalEnergyConsumption : Option ℚ := none
  scope1Emissions : Option ℚ := none
  scope2Emissions : Option ℚ := none
  waterUsageKL : Option ℚ := none
  totalWasteTonnes : Option ℚ := none
  wasteGeneratedKg : Option ℚ := none
  carbonEmissionsTons : Option ℚ := none
  renewableEnergyPercent : Option ℚ := none
  environmentalPolicyExists : Option Bool := none
  deriving DecidableEq, Repr

structure SocialM where
  femalePercentWorkforce : Option ℚ := none
  femaleEmployees : Option ℚ := none
  totalEmployees : Option ℚ := none
  totalEmployeesPermanent : Option ℚ := none
  totalEmployeesContractual : Option ℚ := none
  totalTrainingHoursPerEmployee : Option ℚ := none
  avgTrainingHours : Option ℚ := none
  accidentIncidents : Option ℚ := none
  workplaceIncidents : Option ℚ := none
  employeeTurnoverPercent : Option ℚ := none
  csrSpend : Option ℚ := none
  healthSafetyPolicies : Option Bool := none
  deriving DecidableEq, Repr

structure GovM where
  boardMembers : Option ℚ := none
  independentDirectors : Option ℚ := none
  complianceViolations : Option ℚ := none
  antiCorruptionPolicy : Option Bool := none
  dataPrivacyPolicy : Option Bool := none
  whistleblowerPolicyExists : Option Bool := none
  codeOfConductExists : Option Bool := none
  esgCommitteeExists : Option Bool := none
  deriving DecidableEq, Repr

structure Company where
  employeeCount : Option ℚ := none
  deriving DecidableEq, Repr

/-! ## Score Calculator (src/unnamed/part_006, esgScoring service) -/

/-- Lines 20-25 of the scoring service: when
`Number(company?.employeeCount || 0)` is not a positive number the function
MUTATES the passed company document, setting `employeeCount` to 100. -/
def envMutatedCompany (c : Company) : Company :=
  if orNum c.employeeCount 0 ≤ 0 then { c with employeeCount := some 100 } else c

/-- Energy banding, lines 34-41: applied only when the usage and the
employee count are positive. -/
def energyAdjust (elec ec : ℚ) : ℚ :=
  if 0 < elec ∧ 0 < ec then
    let per := elec / ec
    if 500 < per then -15 else if 300 < per then -8 else if per < 150 then 5 else 0
  else 0

/-- Waste banding, lines 43-50. -/
def wasteAdjust (waste ec : ℚ) : ℚ :=
  if 0 < waste ∧ 0 < ec then
    let per := waste / ec
    if 100 < per then -15 else if 50 < per then -8 else 5
  else 0

/-- Water banding, lines 52-57. -/
def waterAdjust (water ec : ℚ) : ℚ :=
  if 0 < water ∧ 0 < ec then
    let per := water / ec
    if 5 < per then -10 else if per < 2 then 5 else 0
  else 0

/-- Renewable-energy additive term, lines 59-62. -/
def renewAdjust (r : ℚ) : ℚ :=
  if 0 ≤ r ∧ r ≤ 100 then r * (3 / 10) else 0

/-- Carbon banding, lines 64-69. -/
def carbonAdjust (carbon ec : ℚ) : ℚ :=
  if 0 < carbon ∧ 0 < ec then
    let per := carbon / ec
    if 5 < per then -10 else if per < 2 then 5 else 0
  else 0

/-- Function `calculateEnvironmentalScore` (lines 17-72).  The score starts at 100,
the five adjustments are added in sequence and the sum is clamped to
[0,100].  The function returns the (possibly mutated) company document as
second component, reflecting the in-place write on line 24. -/
def calculateEnvironmentalScore (m : EnvM) (c : Company) : ℚ × Company :=
  let c' := envMutatedCompany c
  let ec := orNum c'.employeeCount 0
  let score := 100
    + energyAdjust (orNum m.electricityUsageKwh 0) ec
    + wasteAdjust (orNum m.wasteGeneratedKg 0) ec
    + waterAdjust (orNum m.waterUsageKL 0) ec
    + renewAdjust (orNum m.renewableEnergyPercent 0)
    + carbonAdjust (orNum m.carbonEmissionsTons 0) ec
  (clamp0100 score, c')

/-- Female-workforce percentage fallback chain, lines 83-94. -/
def femalePct (m : SocialM) : ℚ :=
  match m.femalePercentWorkforce with
  | some q => q
  | none =>
    if truthyQ m.femaleEmployees ∧ truthyQ m.totalEmployees then
      orNum m.femaleEmployees 0 / orNum m.totalEmployees 0 * 100
    else if truthyQ m.totalEmployeesPermanent then
      let tot := orNum m.totalEmployeesPermanent 0 + orNum m.totalEmployeesContractual 0
      if truthyQ m.femaleEmployees ∧ 0 < tot then
        orNum m.femaleEmployees 0 / tot * 100
      else 0
    else 0

/-- Gender-diversity tier, lines 96-101. -/
def femaleAdjust (p : ℚ) : ℚ :=
  if 0 < p then
    if 40 ≤ p then 25 else if 30 ≤ p then 18 else if 20 ≤ p then 12
    else if 10 ≤ p then 6 else 0
  else 0

/-- Training tier, lines 105-111. -/
def trainingAdjust (h : ℚ) : ℚ :=
  if 0 < h then
    if 40 ≤ h then 25 else if 24 ≤ h then 18 else if 12 ≤ h then 12
    else if 6 ≤ h then 6 else 0
  else 0

/-- Safety tier, lines 115-123. -/
def safetyAdjust (incidents total : ℚ) : ℚ :=
  if 0 < total then
    let rate := incidents / total * 100
    if rate = 0 then 25 else if rate < 1 then 18 else if rate < 3 then 10 else -10
  else 0

/-- Turnover tier, lines 126-133. -/
def turnoverAdjust (t : ℚ) : ℚ :=
  if 0 ≤ t then
    if t < 5 then 25 else if t < 10 then 18 else if t < 15 then 12
    else if t < 25 then 6 else -5
  else 0

/-- Function `calculateSocialScore` (lines 78-136): base 50, four tiered additions,
clamped to [0,100]. -/
def calculateSocialScore (m : SocialM) : ℚ :=
  let score := 50
    + femaleAdjust (femalePct m)
    + trainingAdjust (orNum m.totalTrainingHoursPerEmployee (orNum m.avgTrainingHours 0))
    + safetyAdjust (orNum m.accidentIncidents (orNum m.workplaceIncidents 0))
        (orNum m.totalEmployeesPermanent (orNum m.totalEmployees 0))
    + turnoverAdjust (orNum m.employeeTurnoverPercent 0)
  clamp0100 score

/-- Board-independence tier, lines 146-153. -/
def independenceAdjust (indep board : ℚ) : ℚ :=
  if 0 < board then
    let r := indep / board
    if 1 / 2 ≤ r then 30 else if 33 / 100 ≤ r then 20 else if 1 / 4 ≤ r then 10 else 0
  else 0

/-- Compliance-record tier, lines 160-166: the violation count is read as
`Number(metrics.complianceViolations || 0)`, so an absent field counts as
zero violations. -/
def complianceRecordAdjust (cv : Option ℚ) : ℚ :=
  let v := orNum cv 0
  if v = 0 then 30 else if v = 1 then 15 else if v = 2 then 5 else -20

/-- Function `calculateGovernanceScore` (lines 142-169): base 50, independence tier,
two fixed +20 policy bonuses, compliance-record tier, clamped to [0,100]. -/
def calculateGovernanceScore (m : GovM) : ℚ :=
  let score := 50
    + independenceAdjust (orNum m.independentDirectors 0) (orNum m.boardMembers 0)
    + (if m.antiCorruptionPolicy = some true then 20 else 0)
    + (if m.dataPrivacyPolicy = some true then 20 else 0)
    + complianceRecordAdjust m.complianceViolations
  clamp0100 score

structure ESGScores where
  environmentalScore : ℚ
  socialScore : ℚ
  governanceScore : ℚ
  overallScore : ℚ
  deriving DecidableEq, Repr

inductive ScoreError where
  | companyNotFound : ScoreError
  | missingMetrics (pillars : List String) : ScoreError
  deriving DecidableEq, Repr

/-- Function `calculateESGScore` (lines 175-231).  The database fetches are
modelled by passing the latest snapshot of each pillar (or `none`) and the
company document (or `none`) directly.  The missing-pillar list is built
in the order Environmental, Social, Governance exactly as on lines
189-192; the weighted overall score is computed from the UNROUNDED pillar
scores and every returned score is rounded to one decimal. -/
def calculateESGScore (env : Option EnvM) (social : Option SocialM)
    (gov : Option GovM) (company : Option Company) : Except ScoreError ESGScores :=
  match company with
  | none => .error .companyNotFound
  | some c =>
    let missing : List String :=
      (if env.isNone then [("Environmental" : String)] else [])
      ++ (if social.isNone then [("Social" : String)] else [])
      ++ (if gov.isNone then [("Governance" : String)] else [])
    match env, social, gov with
    | some e, some s, some g =>
      let environmentalScore := (calculateEnvironmentalScore e c).1
      let socialScore := calculateSocialScore s
      let governanceScore := calculateGovernanceScore g
      let overallScore := environmentalScore * (4 / 10) + socialScore * (3 / 10)
        + governanceScore * (3 / 10)
      .ok { environmentalScore := round1 environmentalScore
            socialScore := round1 socialScore
            governanceScore := round1 governanceScore
            overallScore := round1 overallScore }
    | _, _, _ => .error (.missingMetrics missing)

/-! ## Completeness Analyzer (src/src/services/dataCompleteness.ts)

The completeness functions read fields generically (`metrics[field.key]`),
so here a snapshot is a total map from key strings to JS values.  `JSVal`
distinguishes undefined, null, NaN, numbers, strings and booleans because
`isMissing` does. -/

inductive JSVal where
  | undef : JSVal
  | jnull : JSVal
  | num (q : ℚ) : JSVal
  | nanV : JSVal
  | str (s : String) : JSVal
  | bool (b : Bool) : JSVal
  deriving DecidableEq, Repr

/-- JS `??` skips exactly null and undefined. -/
def jsNullish : JSVal → Bool
  | .undef => true
  | .jnull => true
  | _ => false

/-- Lines 17-19 of dataCompleteness.ts: missing means null, undefined,
empty string, or a NaN number. -/
def jsIsMissing : JSVal → Bool
  | .undef => true
  | .jnull => true
  | .nanV => true
  | .str s => decide (s = "")
  | .num _ => false
  | .bool _ => false

structure FieldSpec where
  key : String
  label : String
  critical : Bool
  deriving DecidableEq, Repr

/-- The eight environmental fields (lines 30-39). -/
def envFields : List FieldSpec :=
  [ { key := "electricityKwh", label := "Electricity (kWh)", critical := true },
    { key := "fuelLitres", label := "Fuel (L)", critical := true },
    { key := "scope1Emissions", label := "Scope 1 Emissions", critical := true },
    { key := "scope2Emissions", label := "Scope 2 Emissions", critical := true },
    { key := "waterUsageKL", label := "Water Usage (KL)", critical := true },
    { key := "totalWasteTonnes", label := "Total Waste (tonnes)", critical := true },
    { key := "renewableEnergyPercent", label := "Renewable Energy %", critical := false },
    { key := "totalEnergyConsumption", label := "Total Energy Consumption", critical := false } ]

/-- Result of `field.key.replace(Kwh, UsageKwh)` on the eight
environmental field keys: only `electricityKwh` contains `Kwh`. -/
def replaceKwh (s : String) : String :=
  if s = "electricityKwh" then "electricityUsageKwh" else s

/-- Result of `field.key.replace(Litres, ConsumptionLitres)` on the
eight environmental field keys: only `fuelLitres` contains `Litres`. -/
def replaceLitres (s : String) : String :=
  if s = "fuelLitres" then "fuelConsumptionLitres" else s

/-- Line 46: `metrics[key] ?? metrics[key.replace(Kwh, UsageKwh)] ??
metrics[key.replace(Litres, ConsumptionLitres)]`. -/
def envProbe (m : String → JSVal) (key : String) : JSVal :=
  let v1 := m key
  if jsNullish v1 then
    let v2 := m (replaceKwh key)
    if jsNullish v2 then m (replaceLitres key) else v2
  else v1

structure CompletenessResult where
  completeness : ℤ
  completed : List String
  missing : List String
  missingCritical : List String
  deriving DecidableEq, Repr

/-- Builds the result lists and the rounded percentage given the resolved
value of each field, exactly as the three pillar functions do. -/
def completenessOf (fields : List FieldSpec) (value : String → JSVal) : CompletenessResult :=
  let completed := (fields.filter fun f => !jsIsMissing (value f.key)).map (·.label)
  let missing := (fields.filter fun f => jsIsMissing (value f.key)).map (·.label)
  let missingCritical :=
    (fields.filter fun f => jsIsMissing (value f.key) && f.critical).map (·.label)
  { completeness := jsRound ((completed.length : ℚ) / (fields.length : ℚ) * 100)
    completed := completed
    missing := missing
    missingCritical := missingCritical }

/-- Function `getEnvironmentalCompleteness` (lines 24-62), with the alias probe. -/
def getEnvironmentalCompleteness (m : String → JSVal) : CompletenessResult :=
  completenessOf envFields (fun k => envProbe m k)

/-- The eight social fields (lines 73-82). -/
def socialFields : List FieldSpec :=
  [ { key := "totalEmployeesPermanent", label := "Permanent Employees", critical := true },
    { key := "totalEmployeesContractual", label := "Contractual Employees", critical := true },
    { key := "femalePercentWorkforce", label := "Female % of Workforce", critical := true },
    { key := "accidentIncidents", label := "Accident Incidents", critical := true },
    { key := "totalTrainingHoursPerEmployee", label := "Training Hours/Employee", critical := true },
    { key := "csrSpend", label := "CSR Spend", critical := false },
    { key := "totalEmployees", label := "Total Employees (Legacy)", critical := false },
    { key := "femaleEmployees", label := "Female Employees (Legacy)", critical := false } ]

/-- Function `getSocialCompleteness` (lines 67-105): direct key access, no alias. -/
def getSocialCompleteness (m : String → JSVal) : CompletenessResult :=
  completenessOf socialFields m

/-- The six governance fields (lines 116-123). -/
def govFields : List FieldSpec :=
  [ { key := "boardMembers", label := "Board Members", critical := true },
    { key := "independentDirectors", label := "Independent Directors", critical := true },
    { key := "complianceViolations", label := "Compliance Violations", critical := true },
    { key := "antiCorruptionPolicy", label := "Anti-Corruption Policy", critical := false },
    { key := "esgCommitteeExists", label := "ESG Committee", critical := false },
    { key := "boardDiversityPercent", label := "Board Diversity %", critical := false } ]

/-- Function `getGovernanceCompleteness` (lines 110-146): direct key access. -/
def getGovernanceCompleteness (m : String → JSVal) : CompletenessResult :=
  completenessOf govFields m

/-- Pointwise snapshot update: set one key to a value. -/
def updateSnap (m : String → JSVal) (k : String) (v : JSVal) : String → JSVal :=
  fun k' => if k' = k then v else m k'

/-! ## Requirement Coverage Evaluator and Readiness Aggregator
(src/src/services/complianceService.ts) -/

inductive Area where
  | environmental : Area
  | social : Area
  | governance : Area
  deriving DecidableEq, Repr

def areaName : Area → String
  | .environmental => "Environmental"
  | .social => "Social"
  | .governance => "Governance"

inductive ReqCategory where
  | mandatory : ReqCategory
  | clientDriven : ReqCategory
  | futureReady : ReqCategory
  deriving DecidableEq, Repr

structure Requirement where
  id : String
  area : Area
  requirement : String
  mandatory : Bool
  category : ReqCategory
  deriving DecidableEq, Repr

/-- The static BRSR catalog (lines 20-47), in source order. -/
def BRSR_REQUIREMENTS : List Requirement :=
  [ { id := "E1", area := .environmental, requirement := "Energy consumption data", mandatory := true, category := .mandatory },
    { id := "E2", area := .environmental, requirement := "Water consumption data", mandatory := true, category := .mandatory },
    { id := "E3", area := .environmental, requirement := "Waste management data", mandatory := true, category := .mandatory },
    { id := "E4", area := .environmental, requirement := "Air emissions data", mandatory := true, category := .mandatory },
    { id := "E5", area := .environmental, requirement := "Renewable energy usage", mandatory := false, category := .clientDriven },
    { id := "E6", area := .environmental, requirement := "Environmental policy document", mandatory := false, category := .clientDriven },
    { id := "E7", area := .environmental, requirement := "Waste disposal proof", mandatory := false, category := .clientDriven },
    { id := "E8", area := .environmental, requirement := "Carbon footprint calculation", mandatory := false, category := .futureReady },
    { id := "S1", area := .social, requirement := "Total employee count", mandatory := true, category := .mandatory },
    { id := "S2", area := .social, requirement := "Gender diversity data", mandatory := true, category := .mandatory },
    { id := "S3", area := .social, requirement := "Training hours data", mandatory := true, category := .mandatory },
    { id := "S4", area := .social, requirement := "Safety incident data", mandatory := true, category := .mandatory },
    { id := "S5", area := .social, requirement := "CSR spend data", mandatory := false, category := .clientDriven },
    { id := "S6", area := .social, requirement := "Employee welfare policies", mandatory := false, category := .clientDriven },
    { id := "G1", area := .governance, requirement := "Board composition data", mandatory := true, category := .mandatory },
    { id := "G2", area := .governance, requirement := "Independent directors data", mandatory := true, category := .mandatory },
    { id := "G3", area := .governance, requirement := "Compliance violations data", mandatory := true, category := .mandatory },
    { id := "G4", area := .governance, requirement := "Anti-corruption policy", mandatory := false, category := .clientDriven },
    { id := "G5", area := .governance, requirement := "POSH policy", mandatory := false, category := .clientDriven },
    { id := "G6", area := .governance, requirement := "Code of conduct", mandatory := false, category := .clientDriven },
    { id := "G7", area := .governance, requirement := "ESG committee structure", mandatory := false, category := .futureReady } ]

/-- Truthiness of a numeric field of an optional snapshot
(`!!(doc?.field)` after `toObject() || {}`). -/
def optNumTruthy {α : Type} (o : Option α) (f : α → Option ℚ) : Bool :=
  match o with
  | none => false
  | some m => truthyQ (f m)

/-- Truthiness of a boolean field of an optional snapshot. -/
def optBoolTruthy {α : Type} (o : Option α) (f : α → Option Bool) : Bool :=
  match o with
  | none => false
  | some m => (f m).getD false

/-- Models `doc?.field !== undefined` for an optional snapshot. -/
def optFieldPresent {α : Type} (o : Option α) (f : α → Option ℚ) : Bool :=
  match o with
  | none => false
  | some m => (f m).isSome

def lowerChars (s : String) : List Char := s.data.map Char.toLower

def leadMatch : List Char → List Char → Bool
  | [], _ => true
  | _ :: _, [] => false
  | a :: as, b :: bs => a == b && leadMatch as bs

/-- Substring test on character lists (models JS `includes`). -/
def hasSub (needle : List Char) : List Char → Bool
  | [] => leadMatch needle []
  | c :: t => leadMatch needle (c :: t) || hasSub needle t

structure EvidenceRecord where
  id : String
  evidenceType : String
  esgArea : String
  expiryDate : Option ℤ
  deriving DecidableEq, Repr

/-- Models `e.evidenceType?.toLowerCase().includes(kw)`. -/
def evTypeHas (e : EvidenceRecord) (kw : String) : Bool :=
  hasSub kw.data (lowerChars e.evidenceType)

/-- Function `isRequirementCovered` (lines 52-91): one predicate per catalog id,
dispatching on the requirement id. -/
def isRequirementCovered (req : Requirement) (env : Option EnvM)
    (social : Option SocialM) (gov : Option GovM) (ev : List EvidenceRecord) : Bool :=
  if req.id = "E1" then
    optNumTruthy env (·.electricityKwh) || optNumTruthy env (·.electricityUsageKwh)
      || optNumTruthy env (·.totalEnergyConsumption)
  else if req.id = "E2" then optNumTruthy env (·.waterUsageKL)
  else if req.id = "E3" then
    optNumTruthy env (·.totalWasteTonnes) || optNumTruthy env (·.wasteGeneratedKg)
  else if req.id = "E4" then
    optNumTruthy env (·.scope1Emissions) || optNumTruthy env (·.carbonEmissionsTons)
  else if req.id = "E5" then
    optNumTruthy env (·.renewableEnergyPercent)
      && (match env with
          | none => false
          | some m => decide (0 < orNum m.renewableEnergyPercent 0))
  else if req.id = "E6" then optBoolTruthy env (·.environmentalPolicyExists)
  else if req.id = "E7" then
    ev.any fun e => evTypeHas e ("waste") || evTypeHas e ("disposal")
  else if req.id = "E8" then
    optNumTruthy env (·.scope1Emissions) && optNumTruthy env (·.scope2Emissions)
  else if req.id = "S1" then
    optNumTruthy social (·.totalEmployeesPermanent) || optNumTruthy social (·.totalEmployees)
      || optNumTruthy social (·.totalEmployeesContractual)
  else if req.id = "S2" then
    optNumTruthy social (·.femalePercentWorkforce) || optNumTruthy social (·.femaleEmployees)
  else if req.id = "S3" then
    optNumTruthy social (·.totalTrainingHoursPerEmployee) || optNumTruthy social (·.avgTrainingHours)
  else if req.id = "S4" then optFieldPresent social (·.accidentIncidents)
  else if req.id = "S5" then optNumTruthy social (·.csrSpend)
  else if req.id = "S6" then optBoolTruthy social (·.healthSafetyPolicies)
  else if req.id = "G1" then optNumTruthy gov (·.boardMembers)
  else if req.id = "G2" then optNumTruthy gov (·.independentDirectors)
  else if req.id = "G3" then optFieldPresent gov (·.complianceViolations)
  else if req.id = "G4" then optBoolTruthy gov (·.antiCorruptionPolicy)
  else if req.id = "G5" then
    optBoolTruthy gov (·.whistleblowerPolicyExists)
      || ev.any fun e => evTypeHas e ("posh")
  else if req.id = "G6" then optBoolTruthy gov (·.codeOfConductExists)
  else if req.id = "G7" then optBoolTruthy gov (·.esgCommitteeExists)
  else false

structure RequirementCheck where
  req : Requirement
  covered : Bool
  deriving DecidableEq, Repr

inductive RStatus where
  | complete : RStatus
  | warning : RStatus
  | critical : RStatus
  deriving DecidableEq, Repr

structure AreaBreakdown where
  area : Area
  covered : ℕ
  total : ℕ
  missing : ℕ
  status : RStatus
  requirements : List RequirementCheck
  deriving DecidableEq, Repr

inductive NPrio where
  | high : NPrio
  | medium : NPrio
  | low : NPrio
  deriving DecidableEq, Repr

structure NextStep where
  priority : NPrio
  action : String
  area : Area
  requirement : String
  deriving DecidableEq, Repr

structure ReadinessResult where
  overallReadiness : ℤ
  breakdown : List AreaBreakdown
  nextSteps : List NextStep
  deriving DecidableEq, Repr

/-- Lines 149-152: complete when all covered, else warning at 70% of the
pillar total, else critical. -/
def areaStatus (covered total : ℕ) : RStatus :=
  if covered = total then .complete
  else if (total : ℚ) * (7 / 10) ≤ (covered : ℚ) then .warning
  else .critical

def categoryPriority : ReqCategory → ℤ
  | .mandatory => 0
  | .clientDriven => 1
  | .futureReady => 2

/-- The comparator passed to `sort` on lines 178-185. -/
def reqComp (a b : RequirementCheck) : ℤ :=
  if a.req.mandatory ∧ ¬b.req.mandatory then -1
  else if ¬a.req.mandatory ∧ b.req.mandatory then 1
  else categoryPriority a.req.category - categoryPriority b.req.category

def reqLe (a b : RequirementCheck) : Bool := decide (reqComp a b ≤ 0)

def insertSorted {α : Type} (le : α → α → Bool) (a : α) : List α → List α
  | [] => [a]
  | b :: l => if le a b then a :: b :: l else b :: insertSorted le a l

/-- Stable insertion sort.  JS `Array.prototype.sort` is stable (ES2019),
and for a comparator inducing a total preorder every stable sort returns
the same list, so this models the sort call of the source. -/
def stableSort {α : Type} (le : α → α → Bool) : List α → List α
  | [] => []
  | b :: l => insertSorted le b (stableSort le l)

/-- Function `getActionForRequirement` (lines 204-230). -/
def getActionForRequirement (req : Requirement) : String :=
  if req.id = "E1" then "Add electricity consumption data"
  else if req.id = "E2" then "Add water consumption data"
  else if req.id = "E3" then "Add waste management data"
  else if req.id = "E4" then "Add air emissions data"
  else if req.id = "E5" then "Add renewable energy usage percentage"
  else if req.id = "E6" then "Upload environmental policy document"
  else if req.id = "E7" then "Upload waste disposal proof"
  else if req.id = "E8" then "Calculate and add carbon footprint"
  else if req.id = "S1" then "Add total employee count"
  else if req.id = "S2" then "Add gender diversity data"
  else if req.id = "S3" then "Add training hours data"
  else if req.id = "S4" then "Add safety incident data"
  else if req.id = "S5" then "Add CSR spend data"
  else if req.id = "S6" then "Add employee welfare policies"
  else if req.id = "G1" then "Add board composition details"
  else if req.id = "G2" then "Add independent directors count"
  else if req.id = "G3" then "Add compliance violations data"
  else if req.id = "G4" then "Upload anti-corruption policy"
  else if req.id = "G5" then "Upload POSH policy"
  else if req.id = "G6" then "Upload code of conduct"
  else if req.id = "G7" then "Add ESG committee structure"
  else "Complete " ++ req.requirement

def requirementChecks (env : Option EnvM) (social : Option SocialM)
    (gov : Option GovM) (ev : List EvidenceRecord) : List RequirementCheck :=
  BRSR_REQUIREMENTS.map fun r => { req := r, covered := isRequirementCovered r env social gov ev }

def areaBreakdownFor (checks : List RequirementCheck) (area : Area) : AreaBreakdown :=
  let areaReqs := checks.filter fun r => r.req.area = area
  let covered := (areaReqs.filter (·.covered)).length
  let total := areaReqs.length
  { area := area
    covered := covered
    total := total
    missing := total - covered
    status := areaStatus covered total
    requirements := areaReqs }

/-- Function `calculateBRSRReadiness` (lines 96-199).  Database reads are modelled
by passing the latest per-pillar snapshots and the evidence list. -/
def calculateBRSRReadiness (env : Option EnvM) (social : Option SocialM)
    (gov : Option GovM) (ev : List EvidenceRecord) : ReadinessResult :=
  let checks := requirementChecks env social gov ev
  let breakdown := [Area.environmental, Area.social, Area.governance].map
    (areaBreakdownFor checks)
  let totalRequirements := checks.length
  let coveredRequirements := (checks.filter (·.covered)).length
  let overallReadiness :=
    jsRound ((coveredRequirements : ℚ) / (totalRequirements : ℚ) * 100)
  let missingReqs := checks.filter fun r => !r.covered
  let nextSteps := ((stableSort reqLe missingReqs).take 5).map fun r =>
    { priority := if r.req.mandatory then NPrio.high
        else if r.req.category = .clientDriven then NPrio.medium else NPrio.low
      action := getActionForRequirement r.req
      area := r.req.area
      requirement := r.req.requirement }
  { overallReadiness := overallReadiness
    breakdown := breakdown
    nextSteps := nextSteps }

/-! ## Task Synchronizer (src/src/services/taskService.ts)

The task collection is modelled as an explicit list of the tasks of one company threaded through `syncTasks`; `Task.create` appends, `updateMany`
maps.  Timestamps are integers (milliseconds), `dayMs` is one day. -/

inductive TaskSource where
  | compliance : TaskSource
  | missingData : TaskSource
  | expiringDocument : TaskSource
  | manual : TaskSource
  deriving DecidableEq, Repr

inductive TaskStatus where
  | pending : TaskStatus
  | inProgress : TaskStatus
  | completed : TaskStatus
  | overdue : TaskStatus
  deriving DecidableEq, Repr

inductive TaskPriority where
  | high : TaskPriority
  | medium : TaskPriority
  | low : TaskPriority
  deriving DecidableEq, Repr

structure Task where
  title : String
  description : String
  relatedTo : String
  esgArea : String
  priority : TaskPriority
  status : TaskStatus
  dueDate : ℤ
  impact : String
  source : TaskSource
  sourceId : String
  deriving DecidableEq, Repr

def dayMs : ℤ := 86400000

/-- Data read by one sync run: the latest per-pillar snapshots for the
period and the evidence list of the company. -/
structure SyncData where
  env : Option EnvM := none
  social : Option SocialM := none
  gov : Option GovM := none
  evidence : List EvidenceRecord := []

/-- Candidate tasks from compliance next steps (lines 23-39): due in
1/3/7 days by priority, `sourceId = compliance-{area}-{index}`. -/
def complianceTasks (r : ReadinessResult) (now : ℤ) : List Task :=
  r.nextSteps.enum.map fun p =>
    { title := p.2.action
      description := "Complete " ++ p.2.requirement ++ " for " ++ areaName p.2.area ++ " area"
      relatedTo := "Compliance"
      esgArea := areaName p.2.area
      priority := match p.2.priority with
        | .high => TaskPriority.high
        | .medium => TaskPriority.medium
        | .low => TaskPriority.low
      status := .pending
      dueDate := now + (match p.2.priority with | .high => 1 | .medium => 3 | .low => 7) * dayMs
      impact := "Improves " ++ areaName p.2.area ++ " compliance"
      source := .compliance
      sourceId := "compliance-" ++ areaName p.2.area ++ "-" ++ toString p.1 }

/-- Candidate tasks from evidence expiring within 30 days (lines 45-70);
the due date is the expiry date and the `sourceId` is the evidence id.
The human-readable expiry date inside the description is not modelled. -/
def expiringTasks (ev : List EvidenceRecord) (now : ℤ) : List Task :=
  (ev.filter fun e =>
      match e.expiryDate with
      | some d => decide (now ≤ d ∧ d ≤ now + 30 * dayMs)
      | none => false).map fun e =>
    { title := "Renew expiring document: " ++ e.evidenceType
      description := "Document expires soon"
      relatedTo := "Evidence"
      esgArea := e.esgArea
      priority := .high
      status := .pending
      dueDate := (e.expiryDate).getD now
      impact := "Prevents compliance gap"
      source := .expiringDocument
      sourceId := e.id }

/-- Candidate tasks from missing critical data (lines 76-147): fixed
source ids and due offsets of 3/3/7/5 days. -/
def missingDataTasks (env : Option EnvM) (social : Option SocialM)
    (gov : Option GovM) (now : ℤ) : List Task :=
  (if !optNumTruthy env (·.electricityKwh) && !optNumTruthy env (·.electricityUsageKwh) then
    [ { title := "Add electricity consumption data"
        description := "Electricity data is required for environmental metrics"
        relatedTo := "Data"
        esgArea := "Environmental"
        priority := TaskPriority.high
        status := .pending
        dueDate := now + 3 * dayMs
        impact := "Environment score improvement"
        source := .missingData
        sourceId := "env-electricity" } ]
  else [])
  ++ (if !optNumTruthy env (·.waterUsageKL) then
    [ { title := "Add water consumption data"
        description := "Water data is required for environmental metrics"
        relatedTo := "Data"
        esgArea := "Environmental"
        priority := TaskPriority.high
        status := .pending
        dueDate := now + 3 * dayMs
        impact := "Environment score improvement"
        source := .missingData
        sourceId := "env-water" } ]
  else [])
  ++ (if !optNumTruthy social (·.totalEmployeesPermanent)
        && !optNumTruthy social (·.totalEmployees) then
    [ { title := "Add employee count data"
        description := "Employee count is required for social metrics"
        relatedTo := "Data"
        esgArea := "Social"
        priority := TaskPriority.high
        status := .pending
        dueDate := now + 7 * dayMs
        impact := "Social score improvement"
        source := .missingData
        sourceId := "social-employees" } ]
  else [])
  ++ (if !optNumTruthy gov (·.boardMembers) then
    [ { title := "Add board composition details"
        description := "Board details are required for governance metrics"
        relatedTo := "Data"
        esgArea := "Governance"
        priority := TaskPriority.high
        status := .pending
        dueDate := now + 5 * dayMs
        impact := "Governance score improvement"
        source := .missingData
        sourceId := "gov-board" } ]
  else [])

/-- Function `generateTasks` (lines 11-150): the three generator blocks in source
order.  The per-block try/catch is not modelled: the embedded generators
are total, so no block can fail. -/
def generateTasks (d : SyncData) (now : ℤ) : List Task :=
  complianceTasks (calculateBRSRReadiness d.env d.social d.gov d.evidence) now
    ++ expiringTasks d.evidence now
    ++ missingDataTasks d.env d.social d.gov now

/-- Status filter: status in Pending / In Progress. -/
def isOpenTask (t : Task) : Bool :=
  decide (t.status = .pending ∨ t.status = .inProgress)

/-- Source filter: source in compliance / missing-data /
expiring-document. -/
def isAutoSource : TaskSource → Bool
  | .manual => false
  | _ => true

/-- The overdue sweep (lines 188-197): any task of the company that is
Pending or In Progress with a past due date is set to Overdue — the
update filters on status and due date only, not on source. -/
def markOverdue (now : ℤ) (t : Task) : Task :=
  if isOpenTask t ∧ t.dueDate < now then { t with status := .overdue } else t

/-- Function `syncTasks` (lines 155-198): generate candidates, look up open
automatic tasks, insert candidates whose `sourceId` is not present among
them, then sweep overdue tasks. -/
def syncTasks (d : SyncData) (now : ℤ) (db : List Task) : List Task :=
  let newTasks := generateTasks d now
  let existingIds := (db.filter fun t => isOpenTask t && isAutoSource t.source).map (·.sourceId)
  let inserted := newTasks.filter fun t => !(decide (t.sourceId ∈ existingIds))
  (db ++ inserted).map (markOverdue now)

def openCount (db : List Task) : ℕ := db.countP fun t => isOpenTask t

/-! ## General lemmas -/

instance {ε α : Type} [DecidableEq ε] [DecidableEq α] : DecidableEq (Except ε α) :=
  fun a b =>
    match a, b with
    | .ok x, .ok y => decidable_of_iff (x = y) (by simp)
    | .error x, .error y => decidable_of_iff (x = y) (by simp)
    | .ok _, .error _ => isFalse (by simp)
    | .error _, .ok _ => isFalse (by simp)

theorem clamp0100_nonneg (x : ℚ) : 0 ≤ clamp0100 x := le_max_left 0 _

theorem clamp0100_le (x : ℚ) : clamp0100 x ≤ 100 :=
  max_le (by norm_num) (min_le_left 100 x)

theorem jsRound_mono {x y : ℚ} (h : x ≤ y) : jsRound x ≤ jsRound y := by
  rw [jsRound_eq_floor, jsRound_eq_floor]
  exact Int.floor_le_floor (by linarith)

theorem round1_nonneg {x : ℚ} (h : 0 ≤ x) : 0 ≤ round1 x := by
  rw [round1, jsRound_eq_floor]
  have h1 : (0 : ℤ) ≤ ⌊x * 10 + 1 / 2⌋ := Int.le_floor.2 (by push_cast; linarith)
  positivity

theorem round1_le_100 {x : ℚ} (h : x ≤ 100) : round1 x ≤ 100 := by
  rw [round1, jsRound_eq_floor]
  have h1 : ⌊x * 10 + 1 / 2⌋ ≤ 1000 := Int.floor_le_iff.2 (by push_cast; linarith)
  rw [div_le_iff₀ (by norm_num)]
  calc ((⌊x * 10 + 1 / 2⌋ : ℚ)) ≤ (1000 : ℤ) := by exact_mod_cast h1
    _ = 100 * 10 := by norm_num

theorem env_score_bounds (m : EnvM) (c : Company) :
    0 ≤ (calculateEnvironmentalScore m c).1 ∧ (calculateEnvironmentalScore m c).1 ≤ 100 :=
  ⟨clamp0100_nonneg _, clamp0100_le _⟩

theorem social_score_bounds (m : SocialM) :
    0 ≤ calculateSocialScore m ∧ calculateSocialScore m ≤ 100 :=
  ⟨clamp0100_nonneg _, clamp0100_le _⟩

theorem gov_score_bounds (m : GovM) :
    0 ≤ calculateGovernanceScore m ∧ calculateGovernanceScore m ≤ 100 :=
  ⟨clamp0100_nonneg _, clamp0100_le _⟩

/-- When all four documents are present, `calculateESGScore` succeeds and
returns exactly the rounded pillar scores plus the rounded weighted sum of
the unrounded pillar scores. -/
theorem calculateESGScore_ok (e : EnvM) (s : SocialM) (g : GovM) (c : Company) :
    calculateESGScore (some e) (some s) (some g) (some c) =
      .ok { environmentalScore := round1 (calculateEnvironmentalScore e c).1
            socialScore := round1 (calculateSocialScore s)
            governanceScore := round1 (calculateGovernanceScore g)
            overallScore := round1 ((calculateEnvironmentalScore e c).1 * (4 / 10)
              + calculateSocialScore s * (3 / 10) + calculateGovernanceScore g * (3 / 10)) } :=
  rfl

/-! ## Claims -/

/-- C1: for every valid triple of pillar snapshots and company profile,
each pillar score and the overall score returned by `calculateESGScore`
lie in [0, 100] inclusive. -/
theorem C1_scores_within_bounds (e : EnvM) (s : SocialM) (g : GovM) (c : Company)
    (r : ESGScores) (h : calculateESGScore (some e) (some s) (some g) (some c) = .ok r) :
    (0 ≤ r.environmentalScore ∧ r.environmentalScore ≤ 100)
    ∧ (0 ≤ r.socialScore ∧ r.socialScore ≤ 100)
    ∧ (0 ≤ r.governanceScore ∧ r.governanceScore ≤ 100)
    ∧ (0 ≤ r.overallScore ∧ r.overallScore ≤ 100) := by
  rw [calculateESGScore_ok, Except.ok.injEq] at h
  subst h
  obtain ⟨he0, he1⟩ := env_score_bounds e c
  obtain ⟨hs0, hs1⟩ := social_score_bounds s
  obtain ⟨hg0, hg1⟩ := gov_score_bounds g
  refine ⟨⟨round1_nonneg he0, round1_le_100 he1⟩,
    ⟨round1_nonneg hs0, round1_le_100 hs1⟩,
    ⟨round1_nonneg hg0, round1_le_100 hg1⟩,
    ⟨round1_nonneg (by nlinarith), round1_le_100 (by nlinarith)⟩⟩

/-- Witness for C1 at a concrete input. -/
theorem C1_scores_within_bounds_witness :
    (0 ≤ (ESGScores.mk 100 75 80 (865 / 10)).environmentalScore
      ∧ (ESGScores.mk 100 75 80 (865 / 10)).environmentalScore ≤ 100)
    ∧ (0 ≤ (ESGScores.mk 100 75 80 (865 / 10)).socialScore
      ∧ (ESGScores.mk 100 75 80 (865 / 10)).socialScore ≤ 100)
    ∧ (0 ≤ (ESGScores.mk 100 75 80 (865 / 10)).governanceScore
      ∧ (ESGScores.mk 100 75 80 (865 / 10)).governanceScore ≤ 100)
    ∧ (0 ≤ (ESGScores.mk 100 75 80 (865 / 10)).overallScore
      ∧ (ESGScores.mk 100 75 80 (865 / 10)).overallScore ≤ 100) :=
  C1_scores_within_bounds {} {} {} { employeeCount := some 10 } _ (by decide)

/-- Concrete inputs refuting C2: employeeCount 100, electricity 60000
(−15 band) and renewable percentage 59/120 give an unrounded
environmental score of 85.1475. -/
def c2env : EnvM := { electricityUsageKwh := some 60000, renewableEnergyPercent := some (59 / 120) }

def c2company : Company := { employeeCount := some 100 }

/-- C2 counterexample: the returned overall score is 80.6, but
round(0.4·E + 0.3·S + 0.3·G, 1) over the returned (rounded) pillar scores
E = 85.1, S = 75, G = 80 is 80.5. -/
theorem C2_counterexample :
    calculateESGScore (some c2env) (some {}) (some {}) (some c2company) =
      .ok { environmentalScore := 851 / 10, socialScore := 75,
            governanceScore := 80, overallScore := 806 / 10 }
    ∧ round1 ((851 / 10) * (4 / 10) + 75 * (3 / 10) + 80 * (3 / 10)) = 805 / 10
    ∧ ((806 / 10 : ℚ) ≠ 805 / 10) :=
  ⟨by decide, by decide, by decide⟩

/-- C2 amended: the overall score equals round(0.4·E + 0.3·S + 0.3·G, 1)
where E, S, G are the UNROUNDED pillar scores; the same formula over the
rounded pillar scores returned in the result can differ by one rounding
step. -/
theorem C2_overall_from_unrounded (e : EnvM) (s : SocialM) (g : GovM) (c : Company)
    (r : ESGScores) (h : calculateESGScore (some e) (some s) (some g) (some c) = .ok r) :
    r.overallScore = round1 ((calculateEnvironmentalScore e c).1 * (4 / 10)
      + calculateSocialScore s * (3 / 10) + calculateGovernanceScore g * (3 / 10))
    ∧ r.environmentalScore = round1 (calculateEnvironmentalScore e c).1
    ∧ r.socialScore = round1 (calculateSocialScore s)
    ∧ r.governanceScore = round1 (calculateGovernanceScore g) := by
  rw [calculateESGScore_ok, Except.ok.injEq] at h
  subst h
  exact ⟨rfl, rfl, rfl, rfl⟩

/-- Witness for the amended C2 at the counterexample input. -/
theorem C2_overall_from_unrounded_witness :
    (ESGScores.mk (851 / 10) 75 80 (806 / 10)).overallScore =
      round1 ((calculateEnvironmentalScore c2env c2company).1 * (4 / 10)
        + calculateSocialScore {} * (3 / 10) + calculateGovernanceScore {} * (3 / 10))
    ∧ (ESGScores.mk (851 / 10) 75 80 (806 / 10)).environmentalScore =
      round1 (calculateEnvironmentalScore c2env c2company).1
    ∧ (ESGScores.mk (851 / 10) 75 80 (806 / 10)).socialScore = round1 (calculateSocialScore {})
    ∧ (ESGScores.mk (851 / 10) 75 80 (806 / 10)).governanceScore =
      round1 (calculateGovernanceScore {}) :=
  C2_overall_from_unrounded c2env {} {} c2company _ (by decide)

theorem isAutoSource_ne_manual {s : TaskSource} (h : isAutoSource s = true) :
    s ≠ TaskSource.manual := by
  cases s <;> simp_all [isAutoSource]

theorem markOverdue_source (now : ℤ) (t : Task) :
    (markOverdue now t).source = t.source := by
  rw [markOverdue]
  split_ifs <;> rfl

theorem markOverdue_of_not {now : ℤ} {t : Task}
    (h : ¬(isOpenTask t = true ∧ t.dueDate < now)) : markOverdue now t = t := by
  rw [markOverdue, if_neg h]

theorem markOverdue_of_ge {now : ℤ} {t : Task} (h : now ≤ t.dueDate) :
    markOverdue now t = t :=
  markOverdue_of_not fun hc => absurd hc.2 (not_lt.2 h)

theorem markOverdue_idem (now : ℤ) (t : Task) :
    markOverdue now (markOverdue now t) = markOverdue now t := by
  by_cases h : isOpenTask t = true ∧ t.dueDate < now
  · have h1 : markOverdue now t = { t with status := .overdue } := by
      rw [markOverdue, if_pos h]
    rw [h1, markOverdue, if_neg]
    rintro ⟨ho, -⟩
    simp [isOpenTask] at ho
  · rw [markOverdue_of_not h]
    exact markOverdue_of_not h

theorem map_eq_self_of_mem {α : Type} {f : α → α} {l : List α}
    (h : ∀ x ∈ l, f x = x) : l.map f = l := by
  have h' : ∀ x ∈ l, f x = id x := fun x hx => h x hx
  rw [List.map_congr_left h', List.map_id]

/-- Unfolding of `syncTasks`: appended inserts, then the overdue sweep. -/
theorem syncTasks_eq (d : SyncData) (now : ℤ) (db : List Task) :
    syncTasks d now db = (db ++ (generateTasks d now).filter fun t =>
      !(decide (t.sourceId ∈ ((db.filter fun u => isOpenTask u && isAutoSource u.source).map
        (·.sourceId))))).map (markOverdue now) := rfl

/-- Every candidate produced by `generateTasks` is Pending, has an
automatic source, and has a due date not earlier than the sync time. -/
theorem generateTasks_mem_props (d : SyncData) (now : ℤ) :
    ∀ t ∈ generateTasks d now,
      t.status = TaskStatus.pending ∧ isAutoSource t.source = true ∧ now ≤ t.dueDate := by
  intro t ht
  rw [generateTasks] at ht
  rcases List.mem_append.1 ht with hce | hm
  · rcases List.mem_append.1 hce with hc | he
    · obtain ⟨p, hp, rfl⟩ := List.mem_map.1 hc
      refine ⟨rfl, rfl, ?_⟩
      dsimp only
      cases p.2.priority <;> simp [dayMs]
    · obtain ⟨e, hef, rfl⟩ := List.mem_map.1 he
      rw [List.mem_filter] at hef
      obtain ⟨-, hpred⟩ := hef
      refine ⟨rfl, rfl, ?_⟩
      dsimp only
      cases hx : e.expiryDate with
      | none => rw [hx] at hpred; simp at hpred
      | some dd =>
        rw [hx] at hpred
        simp only [decide_eq_true_eq] at hpred
        simpa using hpred.1
  · rw [missingDataTasks] at hm
    rcases List.mem_append.1 hm with hm | h4
    · rcases List.mem_append.1 hm with hm | h3
      · rcases List.mem_append.1 hm with h1 | h2
        · split_ifs at h1
          · rw [List.mem_singleton] at h1
            subst h1
            refine ⟨rfl, rfl, ?_⟩
            show now ≤ now + 3 * dayMs
            simp only [dayMs]
            omega
          · simp at h1
        · split_ifs at h2
          · rw [List.mem_singleton] at h2
            subst h2
            refine ⟨rfl, rfl, ?_⟩
            show now ≤ now + 3 * dayMs
            simp only [dayMs]
            omega
          · simp at h2
      · split_ifs at h3
        · rw [List.mem_singleton] at h3
          subst h3
          refine ⟨rfl, rfl, ?_⟩
          show now ≤ now + 7 * dayMs
          simp only [dayMs]
          omega
        · simp at h3
    · split_ifs at h4
      · rw [List.mem_singleton] at h4
        subst h4
        refine ⟨rfl, rfl, ?_⟩
        show now ≤ now + 5 * dayMs
        simp only [dayMs]
        omega
      · simp at h4

def emptyData : SyncData := {}

/-- A pre-existing, already overdue open automatic task for the missing
water-data gap: the input that breaks the idempotence claim. -/
def overdueWaterTask : Task :=
  { title := "Add water consumption data"
    description := "Water data is required for environmental metrics"
    relatedTo := "Data"
    esgArea := "Environmental"
    priority := .high
    status := .pending
    dueDate := -dayMs
    impact := "Environment score improvement"
    source := .missingData
    sourceId := "env-water" }

/-- C3 counterexample: starting from a backlog holding one open
`env-water` task whose due date has passed, the first sync inserts the
other eight candidates and sweeps that task to Overdue; the second sync
then re-inserts an `env-water` candidate, so the open count changes from
8 to 9. -/
theorem C3_counterexample :
    openCount (syncTasks emptyData 0 [overdueWaterTask]) = 8
    ∧ openCount (syncTasks emptyData 0 (syncTasks emptyData 0 [overdueWaterTask])) = 9
    ∧ (8 : ℕ) ≠ 9 :=
  ⟨by decide, by decide, by decide⟩

/-- C3 amended: if no open automatic task of the starting backlog is
already past due at sync time, a second sync with unchanged data returns
the backlog of the first sync unchanged (in particular the open task
count is unchanged). -/
theorem C3_sync_idempotent_no_overdue_backlog (d : SyncData) (now : ℤ) (db : List Task)
    (h : ∀ t ∈ db, isOpenTask t = true → isAutoSource t.source = true → now ≤ t.dueDate) :
    syncTasks d now (syncTasks d now db) = syncTasks d now db := by
  have hprops := generateTasks_mem_props d now
  have hins_id : ((generateTasks d now).filter fun t =>
      !(decide (t.sourceId ∈ ((db.filter fun u => isOpenTask u && isAutoSource u.source).map
        (·.sourceId))))).map (markOverdue now)
      = (generateTasks d now).filter fun t =>
        !(decide (t.sourceId ∈ ((db.filter fun u => isOpenTask u && isAutoSource u.source).map
          (·.sourceId)))) := by
    apply map_eq_self_of_mem
    intro x hx
    exact markOverdue_of_ge (hprops x (List.mem_filter.1 hx).1).2.2
  have hdb1 : syncTasks d now db = db.map (markOverdue now)
      ++ ((generateTasks d now).filter fun t =>
        !(decide (t.sourceId ∈ ((db.filter fun u => isOpenTask u && isAutoSource u.source).map
          (·.sourceId))))) := by
    rw [syncTasks_eq, List.map_append, hins_id]
  have hcov : ∀ c ∈ generateTasks d now,
      c.sourceId ∈ (((syncTasks d now db).filter fun u =>
        isOpenTask u && isAutoSource u.source).map (·.sourceId)) := by
    intro c hc
    obtain ⟨hst, hau, -⟩ := hprops c hc
    by_cases hid : c.sourceId ∈ ((db.filter fun u =>
        isOpenTask u && isAutoSource u.source).map (·.sourceId))
    · obtain ⟨t, htf, hteq⟩ := List.mem_map.1 hid
      obtain ⟨htmem, htp⟩ := List.mem_filter.1 htf
      have htp' : isOpenTask t = true ∧ isAutoSource t.source = true := by simpa using htp
      obtain ⟨hto, hta⟩ := htp'
      have htd : now ≤ t.dueDate := h t htmem hto hta
      apply List.mem_map.2
      refine ⟨t, ?_, hteq⟩
      apply List.mem_filter.2
      refine ⟨?_, htp⟩
      rw [hdb1]
      apply List.mem_append.2
      left
      exact markOverdue_of_ge htd ▸ List.mem_map_of_mem (markOverdue now) htmem
    · apply List.mem_map.2
      refine ⟨c, ?_, rfl⟩
      apply List.mem_filter.2
      constructor
      · rw [hdb1]
        apply List.mem_append.2
        right
        apply List.mem_filter.2
        refine ⟨hc, ?_⟩
        simp [hid]
      · rw [Bool.and_eq_true]
        exact ⟨by simp [isOpenTask, hst], hau⟩
  have hnil : ((generateTasks d now).filter fun t =>
      !(decide (t.sourceId ∈ (((syncTasks d now db).filter fun u =>
        isOpenTask u && isAutoSource u.source).map (·.sourceId))))) = [] := by
    rw [List.filter_eq_nil_iff]
    intro a ha
    show ¬((!(decide (a.sourceId ∈ (((syncTasks d now db).filter fun u =>
      isOpenTask u && isAutoSource u.source).map (·.sourceId))))) = true)
    simp only [Bool.not_eq_true', decide_eq_false_iff_not, not_not]
    exact hcov a ha
  rw [syncTasks_eq d now (syncTasks d now db), hnil, List.append_nil]
  rw [hdb1, List.map_append, hins_id, List.map_map]
  congr 1
  exact List.map_congr_left fun a _ => markOverdue_idem now a

/-- Witness for C3 amended at the empty backlog. -/
theorem C3_sync_idempotent_witness :
    (∀ t ∈ ([] : List Task), isOpenTask t = true → isAutoSource t.source = true →
      (0 : ℤ) ≤ t.dueDate)
    ∧ syncTasks emptyData 0 (syncTasks emptyData 0 []) = syncTasks emptyData 0 [] :=
  ⟨by simp, C3_sync_idempotent_no_overdue_backlog emptyData 0 [] (by simp)⟩

/-- A manual task that is Pending with a past due date. -/
def manualPendingTask : Task :=
  { title := "Review ESG strategy"
    description := "Quarterly strategy review"
    relatedTo := "Other"
    esgArea := "Governance"
    priority := .low
    status := .pending
    dueDate := -1
    impact := "Strategy"
    source := .manual
    sourceId := "manual-1" }

/-- C4 counterexample: the overdue sweep of `syncTasks` filters on status
and due date only, so an open manual task whose due date has passed is
flipped to Overdue — it is not left unchanged. -/
theorem C4_counterexample :
    manualPendingTask.source = TaskSource.manual
    ∧ (syncTasks emptyData 0 [manualPendingTask]).head?
      = some { manualPendingTask with status := TaskStatus.overdue }
    ∧ ({ manualPendingTask with status := TaskStatus.overdue } ≠ manualPendingTask) :=
  ⟨rfl, by decide, by decide⟩

/-- C4 amended: sync never inserts manual tasks and touches an existing
manual task only through the overdue sweep: a manual task that is not
open or whose due date has not passed is unchanged, while an open manual
task with a past due date has exactly its status set to Overdue. -/
theorem C4_manual_tasks_overdue_sweep_only (d : SyncData) (now : ℤ) (db : List Task) :
    ((syncTasks d now db).take db.length = db.map (markOverdue now))
    ∧ (∀ u ∈ (syncTasks d now db).drop db.length, u.source ≠ TaskSource.manual)
    ∧ (∀ t : Task, t.source = TaskSource.manual →
        ¬(isOpenTask t = true ∧ t.dueDate < now) → markOverdue now t = t)
    ∧ (∀ t : Task, t.source = TaskSource.manual → isOpenTask t = true →
        t.dueDate < now → markOverdue now t = { t with status := TaskStatus.overdue }) := by
  refine ⟨?_, ?_, ?_, ?_⟩
  · rw [syncTasks_eq, List.map_append]
    exact List.take_left' (by rw [List.length_map])
  · intro u hu
    rw [syncTasks_eq, List.map_append, List.drop_left' (by rw [List.length_map])] at hu
    obtain ⟨x, hx, rfl⟩ := List.mem_map.1 hu
    have hxc : x ∈ generateTasks d now := (List.mem_filter.1 hx).1
    have hau := (generateTasks_mem_props d now x hxc).2.1
    rw [markOverdue_source]
    exact isAutoSource_ne_manual hau
  · intro t _ hn
    exact markOverdue_of_not hn
  · intro t _ ho hd
    rw [markOverdue, if_pos ⟨ho, hd⟩]

/-- Witness for C4 amended: the sweep clause applied to the concrete
overdue manual task. -/
theorem C4_manual_tasks_witness :
    markOverdue 0 manualPendingTask
      = { manualPendingTask with status := TaskStatus.overdue } :=
  (C4_manual_tasks_overdue_sweep_only emptyData 0 []).2.2.2 manualPendingTask rfl
    (by decide) (by decide)

/-- The concrete 15-of-21 example input for C5: the four mandatory
environmental requirements, the four mandatory social requirements and
all seven governance requirements are covered. -/
def c5env : EnvM :=
  { electricityKwh := some 1, waterUsageKL := some 1,
    totalWasteTonnes := some 1, scope1Emissions := some 1 }

def c5social : SocialM :=
  { totalEmployeesPermanent := some 10, femaleEmployees := some 4,
    avgTrainingHours := some 10, accidentIncidents := some 0 }

def c5gov : GovM :=
  { boardMembers := some 5, independentDirectors := some 3,
    complianceViolations := some 0, antiCorruptionPolicy := some true,
    whistleblowerPolicyExists := some true, codeOfConductExists := some true,
    esgCommitteeExists := some true }

/-- C5: the readiness calculation evaluates all 21 catalog requirements;
the overall readiness is round(covered/21 × 100) — 71 for 15 covered; each
covered count of each pillar equals the number of true flags in its
per-requirement list and its status follows the complete/70%-warning/
critical rule. -/
theorem C5_brsr_readiness :
    BRSR_REQUIREMENTS.length = 21
    ∧ (∀ (env : Option EnvM) (social : Option SocialM) (gov : Option GovM)
        (ev : List EvidenceRecord), (requirementChecks env social gov ev).length = 21)
    ∧ (∀ (env : Option EnvM) (social : Option SocialM) (gov : Option GovM)
        (ev : List EvidenceRecord),
        (calculateBRSRReadiness env social gov ev).overallReadiness =
          jsRound ((((requirementChecks env social gov ev).filter (·.covered)).length : ℚ)
            / 21 * 100))
    ∧ (∀ (env : Option EnvM) (social : Option SocialM) (gov : Option GovM)
        (ev : List EvidenceRecord),
        ∀ b ∈ (calculateBRSRReadiness env social gov ev).breakdown,
        b.covered = b.requirements.countP (·.covered)
        ∧ b.total = b.requirements.length
        ∧ b.status = (if b.covered = b.total then RStatus.complete
            else if (b.total : ℚ) * (7 / 10) ≤ (b.covered : ℚ) then RStatus.warning
            else RStatus.critical))
    ∧ ((requirementChecks (some c5env) (some c5social) (some c5gov) []).filter
        (·.covered)).length = 15
    ∧ (calculateBRSRReadiness (some c5env) (some c5social) (some c5gov) []).overallReadiness
        = 71 := by
  have hlen : ∀ (env : Option EnvM) (social : Option SocialM) (gov : Option GovM)
      (ev : List EvidenceRecord), (requirementChecks env social gov ev).length = 21 := by
    intro env social gov ev
    rw [requirementChecks, List.length_map]
    decide
  refine ⟨by decide, hlen, ?_, ?_, by decide, by decide⟩
  · intro env social gov ev
    have h0 : (calculateBRSRReadiness env social gov ev).overallReadiness =
        jsRound ((((requirementChecks env social gov ev).filter (·.covered)).length : ℚ)
          / ((requirementChecks env social gov ev).length : ℚ) * 100) := rfl
    rw [hlen] at h0
    simpa using h0
  · intro env social gov ev b hb
    have hbd : (calculateBRSRReadiness env social gov ev).breakdown
        = [Area.environmental, Area.social, Area.governance].map
          (areaBreakdownFor (requirementChecks env social gov ev)) := rfl
    rw [hbd, List.mem_map] at hb
    obtain ⟨a, _, rfl⟩ := hb
    exact ⟨(List.countP_eq_length_filter _ _).symm, rfl, rfl⟩

/-- Witness for C5 at the 15-of-21 input, taking the environmental entry
of the breakdown. -/
theorem C5_brsr_readiness_witness :
    (calculateBRSRReadiness (some c5env) (some c5social) (some c5gov) []).overallReadiness =
      jsRound ((((requirementChecks (some c5env) (some c5social) (some c5gov) []).filter
        (·.covered)).length : ℚ) / 21 * 100)
    ∧ ((areaBreakdownFor (requirementChecks (some c5env) (some c5social) (some c5gov) [])
        Area.environmental).covered
      = (areaBreakdownFor (requirementChecks (some c5env) (some c5social) (some c5gov) [])
        Area.environmental).requirements.countP (·.covered)) := by
  have hmem : areaBreakdownFor (requirementChecks (some c5env) (some c5social) (some c5gov) [])
      Area.environmental
      ∈ (calculateBRSRReadiness (some c5env) (some c5social) (some c5gov) []).breakdown :=
    List.mem_map.2 ⟨Area.environmental, by decide, rfl⟩
  exact ⟨C5_brsr_readiness.2.2.1 (some c5env) (some c5social) (some c5gov) [],
    (C5_brsr_readiness.2.2.2.1 (some c5env) (some c5social) (some c5gov) [] _ hmem).1⟩

/-- C6: when one or more pillar snapshots is absent (the company itself
being found), `calculateESGScore` fails with the missing-metrics error
naming exactly the missing pillars, in the order Environmental, Social,
Governance; no default is substituted. -/
theorem C6_missing_pillars_error (env : Option EnvM) (social : Option SocialM)
    (gov : Option GovM) (c : Company)
    (h : env = none ∨ social = none ∨ gov = none) :
    calculateESGScore env social gov (some c) =
      .error (.missingMetrics
        ((if env.isNone then [("Environmental" : String)] else [])
          ++ (if social.isNone then [("Social" : String)] else [])
          ++ (if gov.isNone then [("Governance" : String)] else []))) := by
  cases env <;> cases social <;> cases gov <;> first
    | rfl
    | simp at h

/-- Witness for C6: only the environmental snapshot is absent. -/
theorem C6_missing_pillars_error_witness :
    calculateESGScore none (some {}) (some {}) (some { employeeCount := some 10 }) =
      .error (.missingMetrics
        ((if (none : Option EnvM).isNone then [("Environmental" : String)] else [])
          ++ (if (some ({} : SocialM)).isNone then [("Social" : String)] else [])
          ++ (if (some ({} : GovM)).isNone then [("Governance" : String)] else []))) :=
  C6_missing_pillars_error none (some {}) (some {}) { employeeCount := some 10 }
    (Or.inl rfl)

/-- Concrete input of the C7 example: 150 employees and 45000 kWh. -/
def c7env : EnvM := { electricityUsageKwh := some 45000 }

def c7company : Company := { employeeCount := some 150 }

/-- C7 counterexample: at exactly 300 kWh per employee the strict test
`energyPerEmployee > 300` fails, so the energy adjustment is 0, not −8,
and the environmental score stays at the baseline 100 instead of
dropping to 92. -/
theorem C7_counterexample :
    energyAdjust 45000 150 = 0
    ∧ (calculateEnvironmentalScore c7env c7company).1 = 100
    ∧ ((0 : ℚ) ≠ -8) ∧ ((100 : ℚ) ≠ 92) :=
  ⟨by decide, by decide, by decide, by decide⟩

/-- C7 amended: the energy band applies −15 when energy per employee is
strictly above 500, −8 when strictly above 300 (and at most 500), +5 when
strictly below 150; at exactly 300 kWh per employee (employeeCount 150,
electricityUsageKwh 45000) no adjustment applies and the score equals the
baseline, while 45150 kWh (301 per employee) does give −8. -/
theorem C7_energy_banding :
    (∀ elec ec : ℚ, 0 < elec → 0 < ec →
      ((energyAdjust elec ec = -15 ↔ 500 < elec / ec)
        ∧ (energyAdjust elec ec = -8 ↔ (300 < elec / ec ∧ elec / ec ≤ 500))
        ∧ (energyAdjust elec ec = 5 ↔ elec / ec < 150)))
    ∧ energyAdjust 45000 150 = 0
    ∧ (calculateEnvironmentalScore c7env c7company).1 = 100
    ∧ energyAdjust 45150 150 = -8 := by
  refine ⟨?_, by decide, by decide, by decide⟩
  intro elec ec h1 h2
  rw [energyAdjust, if_pos ⟨h1, h2⟩]
  dsimp only
  split_ifs with ha hb hc
  · exact ⟨⟨fun _ => ha, fun _ => rfl⟩,
      ⟨fun h => absurd h (by norm_num), fun h => absurd h.2 (not_le.2 ha)⟩,
      ⟨fun h => absurd h (by norm_num), fun h => (by linarith : False).elim⟩⟩
  · exact ⟨⟨fun h => absurd h (by norm_num), fun h => absurd h ha⟩,
      ⟨fun _ => ⟨hb, not_lt.1 ha⟩, fun _ => rfl⟩,
      ⟨fun h => absurd h (by norm_num), fun h => (by linarith : False).elim⟩⟩
  · exact ⟨⟨fun h => absurd h (by norm_num), fun h => absurd h ha⟩,
      ⟨fun h => absurd h (by norm_num), fun h => absurd h.1 hb⟩,
      ⟨fun _ => hc, fun _ => rfl⟩⟩
  · exact ⟨⟨fun h => absurd h (by norm_num), fun h => absurd h ha⟩,
      ⟨fun h => absurd h (by norm_num), fun h => absurd h.1 hb⟩,
      ⟨fun h => absurd h (by norm_num), fun h => absurd h hc⟩⟩

/-- Witness for C7 amended: at 301 kWh per employee the −8 band applies. -/
theorem C7_energy_banding_witness : energyAdjust 45150 150 = -8 :=
  ((C7_energy_banding.1 45150 150 (by norm_num) (by norm_num)).2.1).mpr
    (by norm_num)

theorem not_nullish_of_not_missing {v : JSVal} (h : jsIsMissing v = false) :
    jsNullish v = false := by
  cases v <;> simp_all [jsIsMissing, jsNullish]

/-- The alias probes of one environmental field never read another
primary key of another environmental field. -/
theorem env_alias_keys_disjoint :
    ∀ f ∈ envFields, ∀ g ∈ envFields, f.key ≠ g.key →
      replaceKwh f.key ≠ g.key ∧ replaceLitres f.key ≠ g.key := by decide

theorem env_labels_determine_keys :
    ∀ f ∈ envFields, ∀ g ∈ envFields, f.label = g.label → f.key = g.key := by decide

theorem social_labels_determine_keys :
    ∀ f ∈ socialFields, ∀ g ∈ socialFields, f.label = g.label → f.key = g.key := by decide

theorem gov_labels_determine_keys :
    ∀ f ∈ govFields, ∀ g ∈ govFields, f.label = g.label → f.key = g.key := by decide

theorem getEnvironmentalCompleteness_def (m : String → JSVal) :
    getEnvironmentalCompleteness m = completenessOf envFields (fun k => envProbe m k) := rfl

theorem getSocialCompleteness_def (m : String → JSVal) :
    getSocialCompleteness m = completenessOf socialFields m := rfl

theorem getGovernanceCompleteness_def (m : String → JSVal) :
    getGovernanceCompleteness m = completenessOf govFields m := rfl

/-- Filling exactly one currently-missing field (the resolved values of all
other fields staying the same, the label of the field being unique) never
lowers the rounded percentage and removes the label from the
missing-critical list. -/
theorem completenessOf_fill_step (fields : List FieldSpec) (value value' : String → JSVal)
    (k lbl : String)
    (hflen : 0 < fields.length)
    (hmiss : jsIsMissing (value k) = true)
    (hnew : jsIsMissing (value' k) = false)
    (hsame : ∀ f ∈ fields, f.key ≠ k → value' f.key = value f.key)
    (hlbl : ∀ f ∈ fields, f.label = lbl → f.key = k) :
    (completenessOf fields value).completeness ≤ (completenessOf fields value').completeness
    ∧ lbl ∉ (completenessOf fields value').missingCritical := by
  constructor
  · have hcnt : (fields.filter fun f => !jsIsMissing (value f.key)).length
        ≤ (fields.filter fun f => !jsIsMissing (value' f.key)).length := by
      rw [← List.countP_eq_length_filter, ← List.countP_eq_length_filter]
      apply List.countP_mono_left
      intro f hf hpf
      by_cases hk : f.key = k
      · rw [hk, hmiss] at hpf
        exact absurd hpf (by decide)
      · rw [hsame f hf hk]
        exact hpf
    have e1 : (completenessOf fields value).completeness
        = jsRound (((fields.filter fun f => !jsIsMissing (value f.key)).length : ℚ)
          / (fields.length : ℚ) * 100) := by
      simp [completenessOf]
    have e2 : (completenessOf fields value').completeness
        = jsRound (((fields.filter fun f => !jsIsMissing (value' f.key)).length : ℚ)
          / (fields.length : ℚ) * 100) := by
      simp [completenessOf]
    rw [e1, e2]
    apply jsRound_mono
    have hL : (0 : ℚ) < (fields.length : ℚ) := by exact_mod_cast hflen
    have hc : ((fields.filter fun f => !jsIsMissing (value f.key)).length : ℚ)
        ≤ ((fields.filter fun f => !jsIsMissing (value' f.key)).length : ℚ) := by
      exact_mod_cast hcnt
    exact mul_le_mul_of_nonneg_right ((div_le_div_iff_of_pos_right hL).2 hc) (by norm_num)
  · intro hmemL
    have hex : ∃ f, (f ∈ fields ∧ (jsIsMissing (value' f.key) && f.critical) = true)
        ∧ f.label = lbl := by
      simpa [completenessOf, List.mem_map, List.mem_filter] using hmemL
    obtain ⟨f, ⟨hf, hpred⟩, hfl⟩ := hex
    have hk := hlbl f hf hfl
    rw [hk, hnew] at hpred
    simp at hpred

/-- C8: for each pillar completeness function, changing one
currently-missing critical field to a non-missing value never decreases
the returned percentage and removes the label of that field from
`missingCritical`. -/
theorem C8_completeness_monotone :
    (∀ (m : String → JSVal) (k lbl : String) (v : JSVal),
      ({ key := k, label := lbl, critical := true } : FieldSpec) ∈ envFields →
      jsIsMissing (envProbe m k) = true → jsIsMissing v = false →
      (getEnvironmentalCompleteness m).completeness
        ≤ (getEnvironmentalCompleteness (updateSnap m k v)).completeness
      ∧ lbl ∉ (getEnvironmentalCompleteness (updateSnap m k v)).missingCritical)
    ∧ (∀ (m : String → JSVal) (k lbl : String) (v : JSVal),
      ({ key := k, label := lbl, critical := true } : FieldSpec) ∈ socialFields →
      jsIsMissing (m k) = true → jsIsMissing v = false →
      (getSocialCompleteness m).completeness
        ≤ (getSocialCompleteness (updateSnap m k v)).completeness
      ∧ lbl ∉ (getSocialCompleteness (updateSnap m k v)).missingCritical)
    ∧ (∀ (m : String → JSVal) (k lbl : String) (v : JSVal),
      ({ key := k, label := lbl, critical := true } : FieldSpec) ∈ govFields →
      jsIsMissing (m k) = true → jsIsMissing v = false →
      (getGovernanceCompleteness m).completeness
        ≤ (getGovernanceCompleteness (updateSnap m k v)).completeness
      ∧ lbl ∉ (getGovernanceCompleteness (updateSnap m k v)).missingCritical) := by
  refine ⟨?_, ?_, ?_⟩
  · intro m k lbl v hmem hmiss hv
    rw [getEnvironmentalCompleteness_def, getEnvironmentalCompleteness_def]
    apply completenessOf_fill_step envFields (fun k' => envProbe m k')
      (fun k' => envProbe (updateSnap m k v) k') k lbl (by decide) hmiss
    · have hnb := not_nullish_of_not_missing hv
      have hveq : envProbe (updateSnap m k v) k = v := by
        simp [envProbe, updateSnap, hnb]
      rw [hveq]
      exact hv
    · intro f hf hne
      obtain ⟨h2, h3⟩ := env_alias_keys_disjoint f hf _ hmem hne
      show envProbe (updateSnap m k v) f.key = envProbe m f.key
      simp only [envProbe, updateSnap]
      rw [if_neg hne, if_neg h2, if_neg h3]
    · intro f hf he
      exact env_labels_determine_keys f hf _ hmem he
  · intro m k lbl v hmem hmiss hv
    rw [getSocialCompleteness_def, getSocialCompleteness_def]
    apply completenessOf_fill_step socialFields m (updateSnap m k v) k lbl
      (by decide) hmiss
    · have : updateSnap m k v k = v := by simp [updateSnap]
      rw [this]
      exact hv
    · intro f hf hne
      simp [updateSnap, if_neg hne]
    · intro f hf he
      exact social_labels_determine_keys f hf _ hmem he
  · intro m k lbl v hmem hmiss hv
    rw [getGovernanceCompleteness_def, getGovernanceCompleteness_def]
    apply completenessOf_fill_step govFields m (updateSnap m k v) k lbl
      (by decide) hmiss
    · have : updateSnap m k v k = v := by simp [updateSnap]
      rw [this]
      exact hv
    · intro f hf hne
      simp [updateSnap, if_neg hne]
    · intro f hf he
      exact gov_labels_determine_keys f hf _ hmem he

def emptySnap : String → JSVal := fun _ => JSVal.undef

/-- Witness for C8: filling `electricityKwh` on an empty snapshot. -/
theorem C8_completeness_monotone_witness :
    (getEnvironmentalCompleteness emptySnap).completeness
      ≤ (getEnvironmentalCompleteness
          (updateSnap emptySnap ("electricityKwh") (JSVal.num 5))).completeness
    ∧ ("Electricity (kWh)" : String) ∉ (getEnvironmentalCompleteness
          (updateSnap emptySnap ("electricityKwh") (JSVal.num 5))).missingCritical :=
  C8_completeness_monotone.1 emptySnap ("electricityKwh") ("Electricity (kWh)")
    (JSVal.num 5) (by decide) (by decide) (by decide)

/-- C9 counterexample: `calculateEnvironmentalScore` mutates its company
argument when `employeeCount` is not a positive number, so the score
calculator is not side-effect-free on its arguments. -/
theorem C9_counterexample :
    (calculateEnvironmentalScore {} { employeeCount := some 0 }).2 =
      { employeeCount := some 100 }
    ∧ ({ employeeCount := some 100 } : Company) ≠ { employeeCount := some 0 } :=
  ⟨by decide, by decide⟩

/-- C9 amended: the score calculator is deterministic and leaves the
company document unchanged whenever `employeeCount` is a positive number;
when it is absent, zero or negative, the `employeeCount` of the document is
overwritten with the fallback 100. -/
theorem C9_purity_amended :
    (∀ (m : EnvM) (c : Company), 0 < orNum c.employeeCount 0 →
      (calculateEnvironmentalScore m c).2 = c)
    ∧ (∀ (m : EnvM) (c : Company), orNum c.employeeCount 0 ≤ 0 →
      (calculateEnvironmentalScore m c).2 = { c with employeeCount := some 100 }) := by
  constructor
  · intro m c h
    show envMutatedCompany c = c
    rw [envMutatedCompany, if_neg (not_le.2 h)]
  · intro m c h
    show envMutatedCompany c = _
    rw [envMutatedCompany, if_pos h]

/-- Witness for C9 amended: a company with five employees is unchanged. -/
theorem C9_purity_amended_witness :
    (calculateEnvironmentalScore {} { employeeCount := some 5 }).2 =
      { employeeCount := some 5 } :=
  C9_purity_amended.1 {} { employeeCount := some 5 } (by norm_num [orNum])

/-- C10: an absent `complianceViolations` field is coerced to 0 by
`Number(metrics.complianceViolations || 0)` and receives the full +30
clean-record bonus, giving the same governance score as an explicit 0. -/
theorem C10_absent_violations_full_bonus (m : GovM) :
    calculateGovernanceScore { m with complianceViolations := none }
      = calculateGovernanceScore { m with complianceViolations := some 0 }
    ∧ complianceRecordAdjust none = 30
    ∧ complianceRecordAdjust (some 0) = 30 := by
  refine ⟨?_, by decide, by decide⟩
  simp [calculateGovernanceScore, complianceRecordAdjust, orNum]

end EcoTrack
